import Mathlib

set_option autoImplicit false

/-!
Shallow embedding of the MediSync inventory application (src/app.py).

The application is a set of HTTP request handlers over a relational store.
We model the durable state (`DB`) as lists of rows for the tables the
handlers touch (users, user_activity, Product, Supplier, Purchase), the
Flask session as a record of optional keys, form data as an association
list of string fields, and each handler as a function from session and
database state to a result record carrying the new database state, the
new session, and either a response or a raised exception (`Except.error`),
matching unhandled Python/database exceptions that surface as generic
server errors.
-/

/-- A row of the `users` table: `id, username, password (hash), full_name, role`. -/
structure UserRow where
  id : Nat
  username : String
  password : String
  full_name : String
  role : String
deriving Repr, DecidableEq

/-- A row of the `user_activity` audit table (timestamp column omitted:
no handler reads it). -/
structure ActivityRow where
  username : String
  activity : String
deriving Repr, DecidableEq

/-- A row of the `Product` table (columns the handlers read). -/
structure ProductRow where
  id : Nat
  product_name : String
  product_type : String
  stock_quantity : Int
  status : String
deriving Repr, DecidableEq

/-- A row of the `Supplier` table (columns the handlers read). -/
structure SupplierRow where
  id : Nat
  supplier_name : String
deriving Repr, DecidableEq

/-- A row of the `Purchase` table. `purchase_date` is a timestamp ordinal. -/
structure PurchaseRow where
  id : Nat
  product_id : Nat
  supplier_id : Nat
  batch_number : Option String
  purchase_quantity : Int
  remaining_quantity : Int
  expiration_date : Option String
  status : String
  purchase_date : Nat
deriving Repr, DecidableEq

/-- The database state: the tables the handlers in src/app.py touch. -/
structure DB where
  users : List UserRow
  user_activity : List ActivityRow
  products : List ProductRow
  suppliers : List SupplierRow
  purchases : List PurchaseRow
deriving Repr, DecidableEq

/-- The Flask session: each key is present (`some`) or absent (`none`),
mirroring `session.get` returning `None` for unset keys. -/
structure Session where
  logged_in : Option Bool
  user_id : Option Nat
  username : Option String
  name : Option String
  role : Option String
deriving Repr, DecidableEq

/-- The empty session, as produced by `session.clear()`. -/
def Session.empty : Session :=
  { logged_in := none, user_id := none, username := none, name := none, role := none }

/-- Submitted form data: `request.form` as an association list. -/
def Form := List (String × String)

/-- One output row of the three-way left join in `/purchases`:
`SELECT pu.id, pr.product_name, pu.batch_number, pu.purchase_quantity,
pu.remaining_quantity, pu.expiration_date, pu.status, pu.purchase_date,
s.supplier_name`, with `none` for a missing join partner. -/
structure JoinedRow where
  id : Nat
  product_name : Option String
  batch_number : Option String
  purchase_quantity : Int
  remaining_quantity : Int
  expiration_date : Option String
  status : String
  purchase_date : Nat
  supplier_name : Option String
deriving Repr, DecidableEq

/-- Responses the handlers produce. -/
inductive Response where
  /-- `redirect(url_for(...))` with the resolved target path. -/
  | redirect (target : String)
  /-- `render_template("index.html", error=...)`; `none` when no error kwarg. -/
  | renderLogin (error : Option String)
  /-- `render_template("admin.html", total_stocks=..., medicines=..., supplies=...)`. -/
  | renderDashboard (total_stocks medicines supplies : Int)
  /-- `render_template("purchase.html", purchases=..., products=..., suppliers=...)`.
  Product/supplier lookup rows are `(id, name)` pairs. -/
  | renderPurchases (rows : List JoinedRow)
      (products : List (Nat × String)) (suppliers : List (Nat × String))
  /-- `jsonify(success=True)`. -/
  | jsonSuccess (success : Bool)
deriving Repr, DecidableEq

/-- Result of dispatching one request: the database state after the request,
the session after the request, and the response — or `Except.error` when an
exception escapes the handler (generic server error). -/
structure HResult where
  db : DB
  sess : Session
  resp : Except String Response
deriving Repr

/-- `request.form[k]`: `some` value or absent (absence raises `KeyError`). -/
def formGet (form : Form) (k : String) : Option String :=
  List.lookup k form

/-- `log_activity(username, activity)`: appends one audit row to `user_activity`. -/
def log_activity (db : DB) (username activity : String) : DB :=
  { db with user_activity := db.user_activity ++ [⟨username, activity⟩] }

/-- `GET /` (`login`): clears the session and renders the login form. -/
def login (sess : Session) (db : DB) : HResult :=
  ⟨db, Session.empty, .ok (.renderLogin none)⟩

/-- `SELECT ... FROM users WHERE username=%s` followed by `fetchone()`:
first row whose username matches (username is UNIQUE). -/
def fetchUserByUsername (db : DB) (u : String) : Option UserRow :=
  db.users.find? (fun r => r.username == u)

/-- `POST /auth` (`auth`): reads `username` and `password` from the form
(raising on a missing field), looks the user up, verifies the password with
`chk` (the embedding of `check_password_hash(stored_hash, password)`).
On success updates the session, logs "Logged in" and redirects to the
dashboard; otherwise re-renders the login page with an error. -/
def auth (chk : String → String → Bool) (form : Form) (sess : Session) (db : DB) : HResult :=
  match formGet form "username" with
  | none => ⟨db, sess, .error "KeyError: username"⟩
  | some username =>
    match formGet form "password" with
    | none => ⟨db, sess, .error "KeyError: password"⟩
    | some password =>
      match fetchUserByUsername db username with
      | some user =>
        if chk user.password password then
          ⟨log_activity db username "Logged in",
           { sess with logged_in := some true, user_id := some user.id,
                       username := some user.username, name := some user.full_name,
                       role := some user.role },
           .ok (.redirect "/dashboard")⟩
        else ⟨db, sess, .ok (.renderLogin (some "Invalid login"))⟩
      | none => ⟨db, sess, .ok (.renderLogin (some "Invalid login"))⟩

/-- Python truthiness of `session.get("username")`: `None` and the empty
string are falsy. -/
def pyTruthyStr : Option String → Bool
  | none => false
  | some s => !(s == "")

/-- `GET /logout` (`logout`): logs "Logged out" when the session holds a
(truthy) username, clears the session, redirects to `/`. -/
def logout (sess : Session) (db : DB) : HResult :=
  let db' := match sess.username with
    | some u => if u == "" then db else log_activity db u "Logged out"
    | none => db
  ⟨db', Session.empty, .ok (.redirect "/")⟩

/-- Python truthiness of `session.get("logged_in")`: unset (`None`) and
`False` are falsy. -/
def pyTruthyBool : Option Bool → Bool
  | none => false
  | some b => b

/-- The `login_required` decorator: if the session's `logged_in` flag is not
truthy, redirect to the login page (`url_for("login")` resolves to `/`)
without invoking the wrapped handler; otherwise invoke it. -/
def login_required (f : Session → DB → HResult) (sess : Session) (db : DB) : HResult :=
  if pyTruthyBool sess.logged_in then f sess db
  else ⟨db, sess, .ok (.redirect "/")⟩

/-- `WHERE status='active'` row set of `Product`. -/
def activeProducts (db : DB) : List ProductRow :=
  db.products.filter (fun p => p.status == "active")

/-- Python `x or 0` applied to a nullable SQL aggregate: `NULL` (and `0`)
become `0`. -/
def pyOrZero : Option Int → Int
  | none => 0
  | some v => v

/-- `SELECT SUM(e) FROM Product WHERE status='active'`: `NULL` over an empty
row set, otherwise the fold of `e` over the rows. -/
def sqlSumActive (db : DB) (e : ProductRow → Int) : Option Int :=
  if (activeProducts db).isEmpty then none
  else some ((activeProducts db).foldl (fun acc p => acc + e p) 0)

/-- `GET /dashboard` (`dashboard`, before the decorator): total active stock
and conditional counts of medicines/supplies, each coalesced with `or 0`. -/
def dashboard (sess : Session) (db : DB) : HResult :=
  let total_stocks := pyOrZero (sqlSumActive db (fun p => p.stock_quantity))
  let meds := pyOrZero (sqlSumActive db (fun p => if p.product_type == "medicine" then 1 else 0))
  let supplies := pyOrZero (sqlSumActive db (fun p => if p.product_type == "supply" then 1 else 0))
  ⟨db, sess, .ok (.renderDashboard total_stocks meds supplies)⟩

/-- Builds the joined row for one Purchase row: the left joins resolve a
purchase's product and supplier to the first `Product`/`Supplier` row with
the matching id (ids are SERIAL primary keys). -/
def joinRow (db : DB) (pu : PurchaseRow) : JoinedRow :=
  { id := pu.id
    product_name :=
      (db.products.find? (fun pr => pr.id == pu.product_id)).map (fun pr => pr.product_name)
    batch_number := pu.batch_number
    purchase_quantity := pu.purchase_quantity
    remaining_quantity := pu.remaining_quantity
    expiration_date := pu.expiration_date
    status := pu.status
    purchase_date := pu.purchase_date
    supplier_name :=
      (db.suppliers.find? (fun s => s.id == pu.supplier_id)).map (fun s => s.supplier_name) }

/-- `ORDER BY pu.purchase_date DESC` on joined rows. -/
def dateDesc (a b : JoinedRow) : Prop :=
  b.purchase_date ≤ a.purchase_date

instance : DecidableRel dateDesc :=
  fun a b => inferInstanceAs (Decidable (b.purchase_date ≤ a.purchase_date))

instance : IsTotal _ dateDesc := ⟨fun a b => le_total _ _⟩

instance : IsTrans _ dateDesc := ⟨fun _ _ _ h1 h2 => le_trans h2 h1⟩

/-- `ORDER BY name` ascending on `(id, name)` lookup rows. -/
def nameAsc (a b : Nat × String) : Prop := a.2 ≤ b.2

instance : DecidableRel nameAsc :=
  fun a b => inferInstanceAs (Decidable (a.2 ≤ b.2))

/-- `GET /purchases` (`purchases`, before the decorator): the left join of
Purchase with Product and Supplier ordered by purchase date descending, plus
the full product and supplier lookup lists ordered by name. Pure read. -/
def purchases (sess : Session) (db : DB) : HResult :=
  let joined := List.insertionSort dateDesc (db.purchases.map (joinRow db))
  let prods := List.insertionSort nameAsc (db.products.map (fun p => (p.id, p.product_name)))
  let sups := List.insertionSort nameAsc (db.suppliers.map (fun s => (s.id, s.supplier_name)))
  ⟨db, sess, .ok (.renderPurchases joined prods sups)⟩

/-- Accumulates a decimal digit string into a number; `none` on the first
non-digit character. -/
def digitsToNat : List Char → Nat → Option Nat
  | [], acc => some acc
  | c :: cs, acc =>
    if c.isDigit then digitsToNat cs (acc * 10 + (c.toNat - 48)) else none

/-- Parsing a form string as an integer — Python `int(...)` and the
database's coercion of a text value to `INTEGER`: an optional minus sign
followed by decimal digits; anything else is `none` (raises). -/
def parseInt (s : String) : Option Int :=
  match s.toList with
  | [] => none
  | '-' :: cs =>
    if cs.isEmpty then none else (digitsToNat cs 0).map (fun n => -(n : Int))
  | cs => (digitsToNat cs 0).map (fun n => (n : Int))

/-- Fresh `SERIAL` id for a new Purchase row. -/
def nextPurchaseId (db : DB) : Nat :=
  db.purchases.foldl (fun m r => max m r.id) 0 + 1

/-- The `INSERT INTO Purchase ...` statement: the database coerces the form
strings `product_id`/`supplier_id` to integers (error on malformed input)
and enforces the foreign keys to `Product(id)` and `Supplier(id)` (error on
violation); on success appends one row with `remaining_quantity` equal to
`purchase_quantity`, `batch_number` NULL and status defaulted. -/
def insertPurchase (db : DB) (ps ss : String) (qty : Int) (es : String) (now : Nat) :
    Except String DB :=
  match parseInt ps with
  | none => .error "invalid input syntax for type integer: product_id"
  | some pv =>
    match parseInt ss with
    | none => .error "invalid input syntax for type integer: supplier_id"
    | some sv =>
      if db.products.any (fun p => (p.id : Int) == pv) then
        if db.suppliers.any (fun s => (s.id : Int) == sv) then
          .ok { db with purchases := db.purchases ++
            [⟨nextPurchaseId db, pv.toNat, sv.toNat, none, qty, qty, some es, "in stock", now⟩] }
        else .error "foreign key violation: Purchase.supplier_id"
      else .error "foreign key violation: Purchase.product_id"

/-- `POST /add-purchase` (`add_purchase`, before the decorator): reads the
four form fields in source order (raising on a missing field), parses the
quantity with `int(...)` (raising on malformed input), runs the INSERT and
commits, then logs "Added stock-in" under `session["username"]` (raising if
the key is absent — the commit has already happened) and returns
`{"success": true}`. -/
def add_purchase (form : Form) (now : Nat) (sess : Session) (db : DB) : HResult :=
  match formGet form "product_id" with
  | none => ⟨db, sess, .error "KeyError: product_id"⟩
  | some ps =>
    match formGet form "supplier_id" with
    | none => ⟨db, sess, .error "KeyError: supplier_id"⟩
    | some ss =>
      match formGet form "purchase_quantity" with
      | none => ⟨db, sess, .error "KeyError: purchase_quantity"⟩
      | some qs =>
        match parseInt qs with
        | none => ⟨db, sess, .error "ValueError: invalid literal for int()"⟩
        | some qty =>
          match formGet form "expiration_date" with
          | none => ⟨db, sess, .error "KeyError: expiration_date"⟩
          | some es =>
            match insertPurchase db ps ss qty es now with
            | .error e => ⟨db, sess, .error e⟩
            | .ok db' =>
              match sess.username with
              | none => ⟨db', sess, .error "KeyError: username"⟩
              | some u => ⟨log_activity db' u "Added stock-in", sess, .ok (.jsonSuccess true)⟩

/-- The routes as registered: protected handlers wrapped by `login_required`. -/
def dashboard_route (sess : Session) (db : DB) : HResult :=
  login_required dashboard sess db

/-- `GET /purchases` as registered (decorator applied). -/
def purchases_route (sess : Session) (db : DB) : HResult :=
  login_required purchases sess db

/-- `POST /add-purchase` as registered (decorator applied). -/
def add_purchase_route (form : Form) (now : Nat) (sess : Session) (db : DB) : HResult :=
  login_required (add_purchase form now) sess db

/-! ## Concrete fixtures for closed instantiations -/

/-- Concrete password verifier standing in for `check_password_hash`:
the stored value verifies exactly the matching supplied password. -/
def demoChk (stored supplied : String) : Bool := stored == supplied

/-- A stored user row. -/
def demoUser : UserRow := ⟨1, "alice", "s3cret", "Alice Santos", "admin"⟩

/-- A small database: one user, two active products, one supplier. -/
def demoDB : DB :=
  { users := [demoUser]
    user_activity := []
    products := [⟨1, "Paracetamol", "medicine", 50, "active"⟩,
                 ⟨2, "Gauze", "supply", 20, "active"⟩]
    suppliers := [⟨1, "MedSupply Co"⟩]
    purchases := [] }

/-- A database whose only product is inactive. -/
def demoDBInactive : DB :=
  { users := []
    user_activity := []
    products := [⟨3, "Expired Syrup", "medicine", 5, "inactive"⟩]
    suppliers := []
    purchases := [] }

/-- The session established by a successful login of `demoUser`. -/
def demoSession : Session :=
  { logged_in := some true, user_id := some 1, username := some "alice",
    name := some "Alice Santos", role := some "admin" }

/-- A complete login form for `demoUser`. -/
def demoLoginForm : Form := [("username", "alice"), ("password", "s3cret")]

/-- A complete, valid add-purchase form against `demoDB`. -/
def demoPurchaseForm : Form :=
  [("product_id", "1"), ("supplier_id", "1"),
   ("purchase_quantity", "100"), ("expiration_date", "2025-01-01")]

/-- An add-purchase form whose product id matches no Product row of `demoDB`. -/
def demoBadFkForm : Form :=
  [("product_id", "99"), ("supplier_id", "1"),
   ("purchase_quantity", "5"), ("expiration_date", "2025-01-01")]

/-- An add-purchase form whose quantity is not an integer literal. -/
def demoBadQtyForm : Form :=
  [("product_id", "1"), ("supplier_id", "1"),
   ("purchase_quantity", "abc"), ("expiration_date", "2025-01-01")]

/-! ## Claims -/

/-- C6: `GET /` always clears any existing session before rendering the login
form, and `GET /logout` always clears the session and returns a redirect to
`/`, regardless of the prior session contents. -/
theorem c6_login_logout_clear_session (sess : Session) (db : DB) :
    (login sess db).sess = Session.empty ∧
    (login sess db).resp = .ok (.renderLogin none) ∧
    (logout sess db).sess = Session.empty ∧
    (logout sess db).resp = .ok (.redirect "/") :=
  ⟨rfl, rfl, rfl, rfl⟩

/-- C4: a request to a `login_required` route without a truthy `logged_in`
session flag never invokes the wrapped handler: the result is exactly a
redirect to the login page with database and session untouched — never an
error page — and this holds for the three protected routes and for any
request made with the session that `/logout` leaves behind. -/
theorem c4_login_required_redirects (f : Session → DB → HResult) (sess : Session) (db : DB)
    (h : pyTruthyBool sess.logged_in = false) :
    login_required f sess db = ⟨db, sess, .ok (.redirect "/")⟩ ∧
    dashboard_route sess db = ⟨db, sess, .ok (.redirect "/")⟩ ∧
    purchases_route sess db = ⟨db, sess, .ok (.redirect "/")⟩ ∧
    (∀ form now, add_purchase_route form now sess db = ⟨db, sess, .ok (.redirect "/")⟩) ∧
    (∀ g db2, login_required g (logout sess db).sess db2 =
      ⟨db2, Session.empty, .ok (.redirect "/")⟩) := by
  have gen : ∀ g : Session → DB → HResult,
      login_required g sess db = ⟨db, sess, .ok (.redirect "/")⟩ := fun g => by
    unfold login_required
    rw [h]
    simp
  exact ⟨gen f, gen dashboard, gen purchases, fun form now => gen _, fun g db2 => rfl⟩

/-- Closed instantiation of `c4_login_required_redirects`: the empty session
is rejected and `/dashboard` redirects to `/`. -/
theorem c4_witness :
    pyTruthyBool Session.empty.logged_in = false ∧
    login_required dashboard Session.empty demoDB = ⟨demoDB, Session.empty, .ok (.redirect "/")⟩ :=
  ⟨rfl, (c4_login_required_redirects dashboard Session.empty demoDB rfl).1⟩

/-- C10: when no Product row is active the aggregates are NULL and the
dashboard coalesces them, rendering `total_stocks = 0`, `medicines = 0`
and `supplies = 0` — never NULL/None. -/
theorem c10_dashboard_null_coalesced (sess : Session) (db : DB)
    (h : activeProducts db = []) :
    (dashboard sess db).resp = .ok (.renderDashboard 0 0 0) := by
  simp [dashboard, sqlSumActive, h, pyOrZero]

/-- Closed instantiation of `c10_dashboard_null_coalesced` on a database
whose only product is inactive. -/
theorem c10_witness :
    activeProducts demoDBInactive = [] ∧
    (dashboard Session.empty demoDBInactive).resp = .ok (.renderDashboard 0 0 0) :=
  ⟨rfl, c10_dashboard_null_coalesced Session.empty demoDBInactive rfl⟩

/-- C1: `POST /auth` with a username matching a stored user row and a
password verifying against that row's stored hash sets the session keys
`logged_in`, `user_id`, `username`, `name`, `role` and redirects to
`/dashboard`; for every other username/password pair it re-renders the login
page with an error and leaves the session exactly as it was (so a session
that was empty stays empty, no key is set) and the stored tables untouched. -/
theorem c1_auth_session_establishment (chk : String → String → Bool) (form : Form)
    (sess : Session) (db : DB) (u p : String)
    (hu : formGet form "username" = some u) (hp : formGet form "password" = some p) :
    (∀ user, fetchUserByUsername db u = some user → chk user.password p = true →
      (auth chk form sess db).sess =
        { sess with logged_in := some true, user_id := some user.id,
                    username := some user.username, name := some user.full_name,
                    role := some user.role } ∧
      (auth chk form sess db).resp = .ok (.redirect "/dashboard")) ∧
    ((∀ user, fetchUserByUsername db u = some user → chk user.password p = false) →
      (auth chk form sess db).sess = sess ∧
      (auth chk form sess db).db = db ∧
      (sess = Session.empty → (auth chk form sess db).sess = Session.empty) ∧
      (auth chk form sess db).resp = .ok (.renderLogin (some "Invalid login"))) := by
  constructor
  · intro user hfind hchk
    simp [auth, hu, hp, hfind, hchk]
  · intro hfail
    cases hfind : fetchUserByUsername db u with
    | none => simp [auth, hu, hp, hfind]
    | some user => simp [auth, hu, hp, hfind, hfail user hfind]

/-- Closed instantiation of `c1_auth_session_establishment`: a valid login
of `demoUser` populates the session and redirects; a wrong password leaves
the empty session empty and re-renders with the error. -/
theorem c1_witness :
    (formGet demoLoginForm "username" = some "alice" ∧
     formGet demoLoginForm "password" = some "s3cret" ∧
     (auth demoChk demoLoginForm Session.empty demoDB).sess =
       { Session.empty with logged_in := some true, user_id := some demoUser.id,
                            username := some demoUser.username,
                            name := some demoUser.full_name,
                            role := some demoUser.role } ∧
     (auth demoChk demoLoginForm Session.empty demoDB).resp = .ok (.redirect "/dashboard")) ∧
    (formGet [("username", "alice"), ("password", "wrong")] "username" = some "alice" ∧
     (auth demoChk [("username", "alice"), ("password", "wrong")] Session.empty demoDB).sess
       = Session.empty ∧
     (auth demoChk [("username", "alice"), ("password", "wrong")] Session.empty demoDB).resp
       = .ok (.renderLogin (some "Invalid login"))) := by
  have hsucc := (c1_auth_session_establishment demoChk demoLoginForm Session.empty demoDB
    "alice" "s3cret" rfl rfl).1 demoUser rfl rfl
  have hfail := (c1_auth_session_establishment demoChk
    [("username", "alice"), ("password", "wrong")] Session.empty demoDB
    "alice" "wrong" rfl rfl).2 (by intro user hfind; cases hfind; rfl)
  exact ⟨⟨rfl, rfl, hsucc.1, hsucc.2⟩, ⟨rfl, hfail.1, hfail.2.2.2⟩⟩

/-- Folding `acc + e p` over a list equals the starting value plus the sum
of the mapped values. -/
theorem foldl_add_map_sum (e : ProductRow → Int) :
    ∀ (l : List ProductRow) (a : Int),
      l.foldl (fun acc p => acc + e p) a = a + (l.map e).sum := by
  intro l
  induction l with
  | nil => intro a; simp
  | cons x xs ih => intro a; simp [ih, add_assoc]

/-- Folding a conditional `+1` over a list counts the rows satisfying the
condition. -/
theorem foldl_count_filter_length (P : ProductRow → Bool) :
    ∀ (l : List ProductRow) (a : Int),
      l.foldl (fun acc p => acc + (if P p then 1 else 0)) a
        = a + ((l.filter P).length : Int) := by
  intro l
  induction l with
  | nil => intro a; simp
  | cons x xs ih =>
    intro a
    cases h : P x <;> simp [List.filter_cons, h, ih] <;> push_cast <;> ring

/-- When every row's type is `medicine` or `supply`, the two type filters
partition the list: their lengths add up to the full length. -/
theorem filter_med_supply_partition :
    ∀ l : List ProductRow,
      (∀ p ∈ l, p.product_type = "medicine" ∨ p.product_type = "supply") →
      ((l.filter (fun p => p.product_type == "medicine")).length +
        (l.filter (fun p => p.product_type == "supply")).length) = l.length := by
  intro l
  induction l with
  | nil => intro _; rfl
  | cons x xs ih =>
    intro h
    have hxs := ih (fun p hp => h p (List.mem_cons_of_mem x hp))
    rcases h x (List.mem_cons_self x xs) with hm | hs
    · have h1 : (x.product_type == "medicine") = true := by simp [hm]
      have h2 : (x.product_type == "supply") = false := by simp [hm]
      simp [List.filter_cons, h1, h2]
      omega
    · have h1 : (x.product_type == "medicine") = false := by simp [hs]
      have h2 : (x.product_type == "supply") = true := by simp [hs]
      simp [List.filter_cons, h1, h2]
      omega

/-- Summing a conditional `1`/`0` over a list counts the rows whose
`product_type` equals the given string. -/
theorem map_ite_count (s : String) :
    ∀ l : List ProductRow,
      (l.map (fun p => if p.product_type = s then (1 : Int) else 0)).sum
        = ((l.filter (fun p => p.product_type == s)).length : Int) := by
  intro l
  induction l with
  | nil => simp
  | cons x xs ih =>
    by_cases h : x.product_type = s <;>
      simp [List.filter_cons, h, ih] <;> push_cast <;> ring

/-- C3: `/dashboard` renders `total_stocks` equal to the sum of
`stock_quantity` over the active Product rows, and medicine/supply counts
that are exactly the sizes of the two type filters of the active row set;
under the schema's CHECK constraint (`product_type IN
('medicine','supply')`) the two counts partition the active set. The
handler leaves the database unchanged. -/
theorem c3_dashboard_aggregates (sess : Session) (db : DB)
    (hty : ∀ p ∈ db.products, p.product_type = "medicine" ∨ p.product_type = "supply") :
    (dashboard sess db).db = db ∧
    (dashboard sess db).resp = .ok (.renderDashboard
      (((activeProducts db).map (fun p => p.stock_quantity)).sum)
      (((activeProducts db).filter (fun p => p.product_type == "medicine")).length : Int)
      (((activeProducts db).filter (fun p => p.product_type == "supply")).length : Int)) ∧
    ((activeProducts db).filter (fun p => p.product_type == "medicine")).length +
      ((activeProducts db).filter (fun p => p.product_type == "supply")).length
      = (activeProducts db).length := by
  have hpart := filter_med_supply_partition (activeProducts db)
    (fun p hp => hty p (List.mem_filter.mp hp).1)
  refine ⟨rfl, ?_, hpart⟩
  cases hE : (activeProducts db).isEmpty with
  | true =>
    have hnil : activeProducts db = [] := List.isEmpty_iff.mp hE
    simp [dashboard, sqlSumActive, hnil, pyOrZero]
  | false =>
    simp [dashboard, sqlSumActive, hE, pyOrZero,
      foldl_add_map_sum, map_ite_count]

/-- Closed instantiation of `c3_dashboard_aggregates` on `demoDB`
(one active medicine with stock 50, one active supply with stock 20). -/
theorem c3_witness :
    (∀ p ∈ demoDB.products, p.product_type = "medicine" ∨ p.product_type = "supply") ∧
    (dashboard demoSession demoDB).resp = .ok (.renderDashboard 70 1 1) := by
  have h : ∀ p ∈ demoDB.products,
      p.product_type = "medicine" ∨ p.product_type = "supply" := by decide
  have hc := (c3_dashboard_aggregates demoSession demoDB h).2.1
  exact ⟨h, hc⟩

/-- C7: `/purchases` is a pure read — database and session come back
unchanged — and the rendered purchase list is exactly the left join of
Purchase with Product and Supplier (as a permutation of the joined rows)
arranged in descending `purchase_date` order, accompanied by the full
product list and the full supplier list as `(id, name)` lookup data. -/
theorem c7_purchases_pure_read_join (sess : Session) (db : DB) :
    (purchases sess db).db = db ∧
    (purchases sess db).sess = sess ∧
    ∃ rows prods sups,
      (purchases sess db).resp = .ok (.renderPurchases rows prods sups) ∧
      List.Perm rows (db.purchases.map (joinRow db)) ∧
      List.Sorted dateDesc rows ∧
      List.Perm prods (db.products.map (fun p => (p.id, p.product_name))) ∧
      List.Perm sups (db.suppliers.map (fun s => (s.id, s.supplier_name))) := by
  refine ⟨rfl, rfl, _, _, _, rfl, ?_, ?_, ?_, ?_⟩
  · exact List.perm_insertionSort dateDesc _
  · exact List.sorted_insertionSort dateDesc _
  · exact List.perm_insertionSort nameAsc _
  · exact List.perm_insertionSort nameAsc _

/-- C2: an authenticated `POST /add-purchase` whose form carries
`product_id`, `supplier_id`, a parseable `purchase_quantity = Q` and
`expiration_date`, and whose ids satisfy the foreign keys, appends exactly
one new Purchase row with `purchase_quantity = remaining_quantity = Q`
(hence `remaining_quantity ≤ purchase_quantity` for the created row) and
returns the JSON body `{"success": true}`. -/
theorem c2_add_purchase_row (form : Form) (now : Nat) (sess : Session) (db : DB)
    (u ps ss qs es : String) (q pv sv : Int)
    (hli : pyTruthyBool sess.logged_in = true)
    (hun : sess.username = some u)
    (h1 : formGet form "product_id" = some ps)
    (h2 : formGet form "supplier_id" = some ss)
    (h3 : formGet form "purchase_quantity" = some qs)
    (hq : parseInt qs = some q)
    (h4 : formGet form "expiration_date" = some es)
    (hpv : parseInt ps = some pv)
    (hsv : parseInt ss = some sv)
    (hfk1 : db.products.any (fun p => (p.id : Int) == pv) = true)
    (hfk2 : db.suppliers.any (fun s => (s.id : Int) == sv) = true) :
    ∃ r : PurchaseRow,
      (add_purchase_route form now sess db).db.purchases = db.purchases ++ [r] ∧
      r.purchase_quantity = q ∧ r.remaining_quantity = q ∧
      r.remaining_quantity ≤ r.purchase_quantity ∧
      (add_purchase_route form now sess db).resp = .ok (.jsonSuccess true) := by
  refine ⟨⟨nextPurchaseId db, pv.toNat, sv.toNat, none, q, q, some es, "in stock", now⟩,
    ?_, rfl, rfl, le_refl q, ?_⟩ <;>
    simp [add_purchase_route, login_required, hli, add_purchase, insertPurchase,
      h1, h2, h3, hq, h4, hpv, hsv, hfk1, hfk2, hun, log_activity]

/-- Closed instantiation of `c2_add_purchase_row`: a valid stock-in of
quantity 100 against `demoDB` appends one row with both quantities 100 and
answers `{"success": true}`. -/
theorem c2_witness :
    pyTruthyBool demoSession.logged_in = true ∧
    formGet demoPurchaseForm "purchase_quantity" = some "100" ∧
    ∃ r : PurchaseRow,
      (add_purchase_route demoPurchaseForm 1 demoSession demoDB).db.purchases
        = demoDB.purchases ++ [r] ∧
      r.purchase_quantity = 100 ∧ r.remaining_quantity = 100 ∧
      r.remaining_quantity ≤ r.purchase_quantity ∧
      (add_purchase_route demoPurchaseForm 1 demoSession demoDB).resp
        = .ok (.jsonSuccess true) :=
  ⟨rfl, rfl,
   c2_add_purchase_row demoPurchaseForm 1 demoSession demoDB
     "alice" "1" "1" "100" "2025-01-01" 100 1 1
     rfl rfl rfl rfl rfl (by decide) rfl (by decide) (by decide) (by decide) (by decide)⟩

/-- C5: when the `/add-purchase` INSERT itself fails (malformed id coercion
or a foreign-key violation), the exception propagates as a generic server
error and the database is unchanged: no Purchase row is committed and no
`user_activity` row is logged for the request. -/
theorem c5_insert_failure_unchanged (form : Form) (now : Nat) (sess : Session) (db : DB)
    (ps ss qs es : String) (q : Int) (e : String)
    (hli : pyTruthyBool sess.logged_in = true)
    (h1 : formGet form "product_id" = some ps)
    (h2 : formGet form "supplier_id" = some ss)
    (h3 : formGet form "purchase_quantity" = some qs)
    (hq : parseInt qs = some q)
    (h4 : formGet form "expiration_date" = some es)
    (hins : insertPurchase db ps ss q es now = .error e) :
    (add_purchase_route form now sess db).db = db ∧
    (add_purchase_route form now sess db).db.purchases = db.purchases ∧
    (add_purchase_route form now sess db).db.user_activity = db.user_activity ∧
    (add_purchase_route form now sess db).resp = .error e := by
  simp [add_purchase_route, login_required, hli, add_purchase, h1, h2, h3, hq, h4, hins]

/-- Closed instantiation of `c5_insert_failure_unchanged`: stock-in against
a product id (99) with no Product row errors out and commits nothing. -/
theorem c5_witness :
    insertPurchase demoDB "99" "1" 5 "2025-01-01" 7
      = .error "foreign key violation: Purchase.product_id" ∧
    (add_purchase_route demoBadFkForm 7 demoSession demoDB).db = demoDB ∧
    (add_purchase_route demoBadFkForm 7 demoSession demoDB).resp
      = .error "foreign key violation: Purchase.product_id" := by
  have h := c5_insert_failure_unchanged demoBadFkForm 7 demoSession demoDB
    "99" "1" "5" "2025-01-01" 5 "foreign key violation: Purchase.product_id"
    rfl rfl rfl rfl (by decide) rfl (by rfl)
  exact ⟨by rfl, h.1, h.2.2.2⟩

/-- C9: a `POST /auth` or `POST /add-purchase` whose form is missing a
required field, or whose `purchase_quantity` does not parse as an integer,
raises on field access — the handler produces a server error, not a normal
success or error page. -/
theorem c9_missing_or_malformed_raises (chk : String → String → Bool)
    (formA formP : Form) (sess : Session) (db : DB) (now : Nat) :
    ((formGet formA "username" = none ∨ formGet formA "password" = none) →
      ∃ e, (auth chk formA sess db).resp = .error e) ∧
    ((formGet formP "product_id" = none ∨ formGet formP "supplier_id" = none ∨
      formGet formP "purchase_quantity" = none ∨ formGet formP "expiration_date" = none ∨
      (∃ qs, formGet formP "purchase_quantity" = some qs ∧ parseInt qs = none)) →
      ∃ e, (add_purchase formP now sess db).resp = .error e) := by
  constructor
  · rintro (h | h)
    · exact ⟨"KeyError: username", by simp [auth, h]⟩
    · cases hA : formGet formA "username" with
      | none => exact ⟨"KeyError: username", by simp [auth, hA]⟩
      | some u => exact ⟨"KeyError: password", by simp [auth, hA, h]⟩
  · intro hcase
    cases hA : formGet formP "product_id" with
    | none => exact ⟨"KeyError: product_id", by simp [add_purchase, hA]⟩
    | some ps =>
      cases hB : formGet formP "supplier_id" with
      | none => exact ⟨"KeyError: supplier_id", by simp [add_purchase, hA, hB]⟩
      | some ss =>
        cases hC : formGet formP "purchase_quantity" with
        | none => exact ⟨"KeyError: purchase_quantity", by simp [add_purchase, hA, hB, hC]⟩
        | some qs =>
          cases hQ : parseInt qs with
          | none =>
            exact ⟨"ValueError: invalid literal for int()",
              by simp [add_purchase, hA, hB, hC, hQ]⟩
          | some q =>
            cases hD : formGet formP "expiration_date" with
            | none =>
              exact ⟨"KeyError: expiration_date", by simp [add_purchase, hA, hB, hC, hQ, hD]⟩
            | some es =>
              exfalso
              rcases hcase with h | h | h | h | ⟨qs2, hqs2, hbad⟩
              · rw [hA] at h; exact Option.noConfusion h
              · rw [hB] at h; exact Option.noConfusion h
              · rw [hC] at h; exact Option.noConfusion h
              · rw [hD] at h; exact Option.noConfusion h
              · rw [hC] at hqs2
                cases hqs2
                rw [hQ] at hbad
                exact Option.noConfusion hbad

/-- Closed instantiation of `c9_missing_or_malformed_raises`: an empty login
form raises, and an add-purchase form whose quantity is `"abc"` raises. -/
theorem c9_witness :
    (formGet ([] : Form) "username" = none ∧
     ∃ e, (auth demoChk [] Session.empty demoDB).resp = .error e) ∧
    (formGet demoBadQtyForm "purchase_quantity" = some "abc" ∧
     parseInt "abc" = none ∧
     ∃ e, (add_purchase demoBadQtyForm 0 demoSession demoDB).resp = .error e) :=
  ⟨⟨rfl, (c9_missing_or_malformed_raises demoChk [] demoBadQtyForm Session.empty demoDB 0).1
      (Or.inl rfl)⟩,
   ⟨rfl, rfl, (c9_missing_or_malformed_raises demoChk [] demoBadQtyForm Session.empty demoDB 0).2
      (Or.inr (Or.inr (Or.inr (Or.inr ⟨"abc", rfl, rfl⟩))))⟩⟩

/-- A successful Purchase INSERT leaves every other table unchanged; in
particular it logs nothing to `user_activity`. -/
theorem insertPurchase_ok_frame (db : DB) (ps ss : String) (q : Int) (es : String)
    (now : Nat) (db' : DB) (h : insertPurchase db ps ss q es now = .ok db') :
    db'.user_activity = db.user_activity ∧ db'.users = db.users ∧
    db'.products = db.products ∧ db'.suppliers = db.suppliers := by
  unfold insertPurchase at h
  cases hp : parseInt ps with
  | none => simp [hp] at h
  | some pv =>
    simp only [hp] at h
    cases hs : parseInt ss with
    | none => simp [hs] at h
    | some sv =>
      simp only [hs] at h
      by_cases h1 : db.products.any (fun p => (p.id : Int) == pv) = true
      · by_cases h2 : db.suppliers.any (fun s => (s.id : Int) == sv) = true
        · rw [if_pos h1, if_pos h2] at h
          injection h with h
          rw [← h]
          exact ⟨rfl, rfl, rfl, rfl⟩
        · rw [if_pos h1, if_neg h2] at h
          exact Except.noConfusion h
      · rw [if_neg h1] at h
        exact Except.noConfusion h

/-- C8: each login, each logout by a logged-in user, and each completed
stock-in appends exactly one audit row to `user_activity` recording the
acting username and the activity. -/
theorem c8_audit_rows (chk : String → String → Bool) (form : Form) (now : Nat) (db : DB) :
    (∀ (sess : Session) (u p : String) (user : UserRow),
      formGet form "username" = some u → formGet form "password" = some p →
      fetchUserByUsername db u = some user → chk user.password p = true →
      (auth chk form sess db).db.user_activity = db.user_activity ++ [⟨u, "Logged in"⟩]) ∧
    (∀ (sess : Session) (u : String), sess.username = some u → u ≠ "" →
      (logout sess db).db.user_activity = db.user_activity ++ [⟨u, "Logged out"⟩]) ∧
    (∀ (sess : Session) (u : String), sess.username = some u →
      ∀ r, (add_purchase form now sess db).resp = .ok r →
      (add_purchase form now sess db).db.user_activity
        = db.user_activity ++ [⟨u, "Added stock-in"⟩]) := by
  refine ⟨?_, ?_, ?_⟩
  · intro sess u p user hu hp hf hc
    simp [auth, hu, hp, hf, hc, log_activity]
  · intro sess u hu hne
    have hbe : (u == "") = false := by simp [hne]
    simp [logout, hu, hbe, log_activity]
  · intro sess u hu r hr
    cases hA : formGet form "product_id" with
    | none => simp [add_purchase, hA] at hr
    | some ps =>
      cases hB : formGet form "supplier_id" with
      | none => simp [add_purchase, hA, hB] at hr
      | some ss =>
        cases hC : formGet form "purchase_quantity" with
        | none => simp [add_purchase, hA, hB, hC] at hr
        | some qs =>
          cases hQ : parseInt qs with
          | none => simp [add_purchase, hA, hB, hC, hQ] at hr
          | some q =>
            cases hD : formGet form "expiration_date" with
            | none => simp [add_purchase, hA, hB, hC, hQ, hD] at hr
            | some es =>
              cases hI : insertPurchase db ps ss q es now with
              | error e => simp [add_purchase, hA, hB, hC, hQ, hD, hI] at hr
              | ok db' =>
                have hframe := (insertPurchase_ok_frame db ps ss q es now db' hI).1
                simp [add_purchase, hA, hB, hC, hQ, hD, hI, hu, log_activity, hframe]

/-- Closed instantiation of `c8_audit_rows`: on `demoDB`, logging in,
logging out and a completed stock-in each append their single audit row
under the acting username. -/
theorem c8_witness :
    fetchUserByUsername demoDB "alice" = some demoUser ∧
    demoSession.username = some "alice" ∧
    (auth demoChk demoLoginForm Session.empty demoDB).db.user_activity
      = demoDB.user_activity ++ [⟨"alice", "Logged in"⟩] ∧
    (logout demoSession demoDB).db.user_activity
      = demoDB.user_activity ++ [⟨"alice", "Logged out"⟩] ∧
    (add_purchase demoPurchaseForm 1 demoSession demoDB).db.user_activity
      = demoDB.user_activity ++ [⟨"alice", "Added stock-in"⟩] := by
  refine ⟨rfl, rfl, ?_, ?_, ?_⟩
  · exact (c8_audit_rows demoChk demoLoginForm 1 demoDB).1
      Session.empty "alice" "s3cret" demoUser rfl rfl rfl rfl
  · exact (c8_audit_rows demoChk demoLoginForm 1 demoDB).2.1
      demoSession "alice" rfl (by decide)
  · exact (c8_audit_rows demoChk demoPurchaseForm 1 demoDB).2.2
      demoSession "alice" rfl (.jsonSuccess true) (by rfl)
